import Mathlib

/-!
Shallow embedding of `web/controller/server.go` (ServerController) from the
x-ui repository, together with proofs of the specified properties of its
stateful behaviours: the self-throttling status poller, the version TTL
cache, the lifecycle gateway and the backup/restore (export/import) manager.

Modelling conventions:
* Time is `Nat`, in seconds (`time.Minute = 60`).  Go's
  `now.Sub(t) > d` on a monotone-or-rolled-back clock compares a possibly
  negative duration with `d`; with `Nat` truncated subtraction a rolled-back
  clock yields `0`, which takes the same branch in both guards used by the
  source, so the embedding is branch-faithful.
* Collaborator calls (`service.ServerService` methods, `FormFile`) are passed
  in as values/functions: a handler receives the result the collaborator
  would produce, and the event trace records which collaborators were
  actually consulted and in which order, together with writes to the
  liveness marker.
* The `defer` statements of `importDB` run LIFO at function exit, on every
  return path: the liveness refresh (registered last) first, then
  `RestartXrayService`, then `file.Close` (the close is not an observable
  event of this model).
-/

namespace XUI

/-- Opaque status snapshot (`service.Status`); its fields belong to the
excluded collaborator, so it is modelled as an opaque record. -/
structure Status where
  data : Nat
deriving Repr, DecidableEq

/-- One second is the time unit; `time.Minute` of the source. -/
def timeMinute : Nat := 60

/-- The poller idle threshold, `time.Minute * 3` in `startTask`. -/
def idleThreshold : Nat := 3 * timeMinute

/-- The fields of `ServerController` that this slice mutates/reads
(`lastStatus`, `lastGetStatusTime`, `lastVersions`, `lastGetVersionsTime`). -/
structure ServerController where
  lastStatus : Option Status
  lastGetStatusTime : Nat
  lastVersions : List String
  lastGetVersionsTime : Nat
deriving Repr, DecidableEq

/-- Observable events of a handler run: collaborator invocations, in order,
and writes to the liveness marker (`lastGetStatusTime`). -/
inductive Event where
  | getStatusCall
  | getVersionsCall
  | stopCall
  | restartCall
  | importCall
  | getDbCall
  | livenessSet (t : Nat)
deriving Repr, DecidableEq, BEq

/-- Responses produced through `jsonObj` / `jsonMsg`. -/
inductive Response where
  | okStatus (s : Option Status)
  | okVersions (vs : List String)
  | okMsg (m : String)
  | errMsg (m : String)
deriving Repr, DecidableEq

/-- `NewServerController`: the constructor sets `lastGetStatusTime` to the
construction time `time.Now()`; the remaining fields keep their Go zero
values (`nil` snapshot, `nil` slice, zero time). -/
def NewServerController (now : Nat) : ServerController :=
  { lastStatus := none
    lastGetStatusTime := now
    lastVersions := []
    lastGetVersionsTime := 0 }

/-- `refreshStatus`: replaces the stored snapshot with the collaborator's
result, handing the previous snapshot over as a hint. -/
def refreshStatus (getStatus : Option Status → Status) (a : ServerController) :
    ServerController :=
  { a with lastStatus := some (getStatus a.lastStatus) }

/-- One tick of the cron task registered by `startTask` (`@every 2s`): if
`now.Sub(lastGetStatusTime) > time.Minute*3` the tick returns without doing
anything, otherwise it refreshes the snapshot. -/
def tick (getStatus : Option Status → Status) (now : Nat) (a : ServerController) :
    ServerController × List Event :=
  if now - a.lastGetStatusTime > idleThreshold then (a, [])
  else (refreshStatus getStatus a, [Event.getStatusCall])

/-- The `status` handler: sets `lastGetStatusTime := time.Now()` and replies
with the stored snapshot via `jsonObj`. -/
def status (now : Nat) (a : ServerController) :
    ServerController × List Event × Response :=
  ({ a with lastGetStatusTime := now },
   [Event.livenessSet now],
   Response.okStatus a.lastStatus)

/-- The `getXrayVersion` handler: if `now.Sub(lastGetVersionsTime) <=
time.Minute` it serves the cached list without consulting the collaborator;
otherwise it calls `GetXrayVersions` (result passed in as `fetch`), on error
replies with the error and leaves the cache untouched, on success stores the
fresh list and timestamp and replies with the fresh list. -/
def getXrayVersion (fetch : Except String (List String)) (now : Nat)
    (a : ServerController) : ServerController × List Event × Response :=
  if now - a.lastGetVersionsTime ≤ timeMinute then
    (a, [], Response.okVersions a.lastVersions)
  else
    match fetch with
    | Except.error e => (a, [Event.getVersionsCall], Response.errMsg e)
    | Except.ok versions =>
        ({ a with lastVersions := versions, lastGetVersionsTime := now },
         [Event.getVersionsCall],
         Response.okVersions versions)

/-- The `stopXrayService` handler: sets `lastGetStatusTime := time.Now()`
first, then calls `StopXrayService` and reports its outcome. -/
def stopXrayService (stopResult : Option String) (now : Nat)
    (a : ServerController) : ServerController × List Event × Response :=
  let a2 := { a with lastGetStatusTime := now }
  match stopResult with
  | some e => (a2, [Event.livenessSet now, Event.stopCall], Response.errMsg e)
  | none =>
      (a2, [Event.livenessSet now, Event.stopCall],
       Response.okMsg ("Xray stopped"))

/-- The `restartXrayService` handler: calls `RestartXrayService` and reports
its outcome; it touches no controller state. -/
def restartXrayService (restartResult : Option String) (a : ServerController) :
    ServerController × List Event × Response :=
  match restartResult with
  | some e => (a, [Event.restartCall], Response.errMsg e)
  | none => (a, [Event.restartCall], Response.okMsg ("Xray restarted"))

/-- `filenameRegex.MatchString` for the anchored pattern
`^[a-zA-Z0-9_\-.]+$`: non-empty, every rune a letter, digit, underscore,
hyphen or dot. -/
def filenameRegexMatch (s : String) : Bool :=
  !s.isEmpty && s.toList.all fun c =>
    c.isAlpha || c.isDigit || c == '_' || c == '-' || c == '.'

/-- The outward-facing effects of the `getDb` handler on the HTTP response. -/
structure DbHttpResponse where
  aborted : Bool
  errorMsg : Option String
  headerContentType : Option String
  headerContentDisposition : Option String
  body : List Nat
deriving Repr, DecidableEq

/-- Body of the `getDb` handler with the local `filename` variable exposed as
a parameter: calls `GetDb` (result passed in as `dbResult`), on error replies
via `jsonMsg`; otherwise validates `filename` against `filenameRegex`,
aborting with an invalid-filename error before setting any header or writing
any byte, and only on a match sets the two headers and writes the bytes. -/
def getDbWith (filename : String) (dbResult : Except String (List Nat)) :
    List Event × DbHttpResponse :=
  match dbResult with
  | Except.error e =>
      ([Event.getDbCall],
       { aborted := false
         errorMsg := some e
         headerContentType := none
         headerContentDisposition := none
         body := [] })
  | Except.ok db =>
      if !(filenameRegexMatch filename) then
        ([Event.getDbCall],
         { aborted := true
           errorMsg := some ("invalid filename")
           headerContentType := none
           headerContentDisposition := none
           body := [] })
      else
        ([Event.getDbCall],
         { aborted := false
           errorMsg := none
           headerContentType := some ("application/octet-stream")
           headerContentDisposition :=
             some ("attachment; filename=" ++ filename)
           body := db })

/-- The `getDb` handler as written: the filename is the constant `"x-ui.db"`. -/
def getDb (dbResult : Except String (List Nat)) : List Event × DbHttpResponse :=
  getDbWith "x-ui.db" dbResult

/-- The `importDB` handler: if `FormFile("db")` fails it replies with the
read error and returns at once (no defers registered yet beyond none).
Otherwise it registers, in order, `file.Close`, `RestartXrayService` and the
liveness refresh as deferred calls, invokes `ImportDB` and replies with its
outcome; on return the defers run LIFO: liveness refresh, restart, close. -/
def importDB (formFileResult : Except String Unit)
    (importResult : Option String) (now : Nat) (a : ServerController) :
    ServerController × List Event × Response :=
  match formFileResult with
  | Except.error e => (a, [], Response.errMsg ("Error reading db file: " ++ e))
  | Except.ok _ =>
      let resp :=
        match importResult with
        | some e => Response.errMsg e
        | none => Response.okMsg ("Import DB")
      ({ a with lastGetStatusTime := now },
       [Event.importCall, Event.livenessSet now, Event.restartCall],
       resp)

/-- A tick never writes the liveness marker: `startTask`'s closure only calls
`refreshStatus`, which assigns `lastStatus` alone. -/
theorem tick_preserves_liveness (g : Option Status → Status) (t : Nat)
    (a : ServerController) :
    (tick g t a).1.lastGetStatusTime = a.lastGetStatusTime := by
  unfold tick refreshStatus
  by_cases h : t - a.lastGetStatusTime > idleThreshold
  · rw [if_pos h]
  · rw [if_neg h]

/-- Folding any sequence of ticks leaves the liveness marker where it was. -/
theorem ticks_preserve_liveness (g : Option Status → Status) (ts : List Nat)
    (a : ServerController) :
    (ts.foldl (fun s t => (tick g t s).1) a).lastGetStatusTime =
      a.lastGetStatusTime := by
  induction ts generalizing a with
  | nil => rfl
  | cons t ts ih => rw [List.foldl_cons, ih, tick_preserves_liveness]

/-- C1: after a successful form-file read, `importDB` invokes
`RestartXrayService` exactly once, strictly after the `ImportDB` attempt, and
refreshes the liveness timestamp, whether `ImportDB` fails or succeeds. -/
theorem importDB_always_restarts (importResult : Option String) (now : Nat)
    (a : ServerController) :
    ((importDB (Except.ok ()) importResult now a).2.1).count
        Event.restartCall = 1 ∧
    (importDB (Except.ok ()) importResult now a).2.1 =
      [Event.importCall, Event.livenessSet now, Event.restartCall] ∧
    (importDB (Except.ok ()) importResult now a).1.lastGetStatusTime = now :=
  ⟨rfl, rfl, rfl⟩

/-- C9: when reading the uploaded form file fails, `importDB` replies with
the read error and does nothing else: no collaborator call, no restart, and
the controller state (liveness included) is unchanged. -/
theorem importDB_formFile_error (e : String) (importResult : Option String)
    (now : Nat) (a : ServerController) :
    importDB (Except.error e) importResult now a =
      (a, [], Response.errMsg ("Error reading db file: " ++ e)) := rfl

/-- C2: a tick whose elapsed time since the liveness marker exceeds the
3-minute idle threshold performs no refresh: no collaborator call and the
whole controller state, snapshot included, is unchanged. -/
theorem tick_idle_no_refresh (g : Option Status → Status) (now : Nat)
    (a : ServerController)
    (h : now - a.lastGetStatusTime > idleThreshold) :
    tick g now a = (a, []) := by
  unfold tick
  rw [if_pos h]

/-- C2 witness: a concrete idle tick leaves a concrete controller unchanged. -/
theorem tick_idle_no_refresh_witness :
    181 - (NewServerController 0).lastGetStatusTime > idleThreshold ∧
    tick (fun _ => Status.mk 7) 181 (NewServerController 0) =
      (NewServerController 0, []) :=
  ⟨by decide,
   tick_idle_no_refresh (fun _ => Status.mk 7) 181 (NewServerController 0)
     (by decide)⟩

/-- C6: after a status read at time `r`, any tick at time `t` with
`t - r` within the idle threshold refreshes the snapshot from the
collaborator — activity resumes with no explicit wake call. -/
theorem tick_resumes_after_read (g : Option Status → Status) (r t : Nat)
    (a : ServerController) (h : t - r ≤ idleThreshold) :
    tick g t (status r a).1 =
      ({ a with lastGetStatusTime := r,
                lastStatus := some (g a.lastStatus) },
       [Event.getStatusCall]) := by
  unfold status tick refreshStatus
  rw [if_neg]
  simp only [gt_iff_lt, not_lt]
  exact h

/-- C6 witness: a read at time 0 makes the tick at time 2 refresh. -/
theorem tick_resumes_after_read_witness :
    (2 : Nat) - 0 ≤ idleThreshold ∧
    tick (fun _ => Status.mk 5) 2 (status 0 (NewServerController 0)).1 =
      ({ NewServerController 0 with lastGetStatusTime := 0,
                                    lastStatus := some (Status.mk 5) },
       [Event.getStatusCall]) :=
  ⟨by decide,
   tick_resumes_after_read (fun _ => Status.mk 5) 0 2 (NewServerController 0)
     (by decide)⟩

/-- C7: a status read replies with exactly the stored snapshot, leaves the
snapshot and the version cache unchanged, and sets the liveness marker to
the current time. -/
theorem status_read_verbatim (now : Nat) (a : ServerController) :
    (status now a).2.2 = Response.okStatus a.lastStatus ∧
    (status now a).1.lastStatus = a.lastStatus ∧
    (status now a).1.lastVersions = a.lastVersions ∧
    (status now a).1.lastGetVersionsTime = a.lastGetVersionsTime ∧
    (status now a).1.lastGetStatusTime = now :=
  ⟨rfl, rfl, rfl, rfl, rfl⟩

/-- C8: `stopXrayService` writes the liveness marker before invoking the
supervisor (the trace puts the liveness write strictly ahead of the stop
call) and ends with `lastGetStatusTime = now`; `restartXrayService` leaves
the whole controller state, liveness included, unchanged. -/
theorem stop_sets_liveness_restart_does_not (stopResult restartResult :
    Option String) (now : Nat) (a : ServerController) :
    (stopXrayService stopResult now a).2.1 =
      [Event.livenessSet now, Event.stopCall] ∧
    (stopXrayService stopResult now a).1.lastGetStatusTime = now ∧
    (restartXrayService restartResult a).1 = a ∧
    (restartXrayService restartResult a).2.1 = [Event.restartCall] := by
  cases stopResult <;> cases restartResult <;>
    exact ⟨rfl, rfl, rfl, rfl⟩

/-- C10: the constructor stamps the liveness marker with the construction
time, and every tick of any tick sequence inside the first 3-minute window —
with no status read ever — still refreshes the snapshot: the tick following
any such sequence calls the collaborator and stores its result. -/
theorem newController_first_window_active (t0 : Nat) (ts : List Nat)
    (g : Option Status → Status) (t : Nat) (h : t - t0 ≤ idleThreshold) :
    (NewServerController t0).lastGetStatusTime = t0 ∧
    (tick g t (ts.foldl (fun s tt => (tick g tt s).1)
        (NewServerController t0))).2 = [Event.getStatusCall] := by
  refine ⟨rfl, ?_⟩
  have hl := ticks_preserve_liveness g ts (NewServerController t0)
  set aN := List.foldl (fun s tt => (tick g tt s).1) (NewServerController t0) ts
  unfold tick
  rw [if_neg]
  rw [hl]
  exact Nat.not_lt.mpr h

/-- C10 witness: after ticks at times 2 and 4 with no read, the tick at
time 6 still refreshes a controller constructed at time 0. -/
theorem newController_first_window_active_witness :
    (6 : Nat) - 0 ≤ idleThreshold ∧
    ((NewServerController 0).lastGetStatusTime = 0 ∧
     (tick (fun _ => Status.mk 9) 6
        (List.foldl (fun s tt => (tick (fun _ => Status.mk 9) tt s).1)
          (NewServerController 0) [2, 4])).2 = [Event.getStatusCall]) :=
  ⟨by decide,
   newController_first_window_active 0 [2, 4] (fun _ => Status.mk 9) 6
     (by decide)⟩

/-- Cache-hit branch of `getXrayVersion`: within the TTL the cached list is
served, no collaborator call, no state change. -/
theorem getXrayVersion_hit_eq (fetch : Except String (List String))
    (now : Nat) (a : ServerController)
    (h : now - a.lastGetVersionsTime ≤ timeMinute) :
    getXrayVersion fetch now a = (a, [], Response.okVersions a.lastVersions) := by
  unfold getXrayVersion
  rw [if_pos h]

/-- Successful recompute branch of `getXrayVersion`: past the TTL a
successful fetch is stored together with its timestamp and returned. -/
theorem getXrayVersion_miss_ok_eq (v : List String) (now : Nat)
    (a : ServerController) (h : now - a.lastGetVersionsTime > timeMinute) :
    getXrayVersion (Except.ok v) now a =
      ({ a with lastVersions := v, lastGetVersionsTime := now },
       [Event.getVersionsCall], Response.okVersions v) := by
  unfold getXrayVersion
  rw [if_neg (Nat.not_le.mpr h)]

/-- C3: after a first `getXrayVersion` call that took the recompute path and
succeeded with list `v` at time `t1`, a second call within one minute serves
`v` from the cache: it consults no collaborator (empty trace, result
independent of the second fetch outcome) and changes no state. -/
theorem getXrayVersion_cache_hit (v : List String)
    (fetch2 : Except String (List String)) (t1 t2 : Nat)
    (a : ServerController)
    (h1 : t1 - a.lastGetVersionsTime > timeMinute)
    (h2 : t2 - t1 ≤ timeMinute) :
    ((getXrayVersion (Except.ok v) t1 a).1).lastVersions = v ∧
    getXrayVersion fetch2 t2 (getXrayVersion (Except.ok v) t1 a).1 =
      ((getXrayVersion (Except.ok v) t1 a).1, [], Response.okVersions v) := by
  rw [getXrayVersion_miss_ok_eq v t1 a h1]
  exact ⟨rfl, getXrayVersion_hit_eq fetch2 t2 _ h2⟩

/-- C3 witness: fetch at time 61 stores the list, a call at time 100 serves
it from cache even though the collaborator would now fail. -/
theorem getXrayVersion_cache_hit_witness :
    ((61 : Nat) - (NewServerController 0).lastGetVersionsTime > timeMinute ∧
     (100 : Nat) - 61 ≤ timeMinute) ∧
    (((getXrayVersion (Except.ok ["1.0", "1.1"]) 61
        (NewServerController 0)).1).lastVersions = ["1.0", "1.1"] ∧
     getXrayVersion (Except.error ("down")) 100
        (getXrayVersion (Except.ok ["1.0", "1.1"]) 61
          (NewServerController 0)).1 =
      ((getXrayVersion (Except.ok ["1.0", "1.1"]) 61
          (NewServerController 0)).1, [],
       Response.okVersions ["1.0", "1.1"])) :=
  ⟨⟨by decide, by decide⟩,
   getXrayVersion_cache_hit ["1.0", "1.1"] (Except.error ("down")) 61 100
     (NewServerController 0) (by decide) (by decide)⟩

/-- C4: a `getXrayVersion` call that takes the recompute path and whose
collaborator call fails replies with the error — never the stale cached
list — and leaves the cached list and its timestamp untouched. -/
theorem getXrayVersion_fetch_error (e : String) (now : Nat)
    (a : ServerController)
    (h : now - a.lastGetVersionsTime > timeMinute) :
    getXrayVersion (Except.error e) now a =
      (a, [Event.getVersionsCall], Response.errMsg e) := by
  unfold getXrayVersion
  rw [if_neg (Nat.not_le.mpr h)]

/-- C4 witness: a failing recompute at time 61 returns the error and leaves
the concrete controller unchanged. -/
theorem getXrayVersion_fetch_error_witness :
    (61 : Nat) - (NewServerController 0).lastGetVersionsTime > timeMinute ∧
    getXrayVersion (Except.error ("down")) 61 (NewServerController 0) =
      (NewServerController 0, [Event.getVersionsCall],
       Response.errMsg ("down")) :=
  ⟨by decide,
   getXrayVersion_fetch_error ("down") 61 (NewServerController 0)
     (by decide)⟩

/-- C5: if the delivered filename fails the `^[a-zA-Z0-9_\-.]+$` check, the
export aborts with an invalid-filename error before any outward effect: no
header is set and not one byte of the database reaches the response body. -/
theorem getDb_invalid_filename_aborts (filename : String) (db : List Nat)
    (h : filenameRegexMatch filename = false) :
    getDbWith filename (Except.ok db) =
      ([Event.getDbCall],
       { aborted := true
         errorMsg := some ("invalid filename")
         headerContentType := none
         headerContentDisposition := none
         body := [] }) := by
  unfold getDbWith
  rw [h]
  rfl

/-- C5 witness: a filename holding a path separator aborts the export with
nothing written. -/
theorem getDb_invalid_filename_aborts_witness :
    filenameRegexMatch ("../x-ui.db/") = false ∧
    getDbWith ("../x-ui.db/") (Except.ok [1, 2, 3]) =
      ([Event.getDbCall],
       { aborted := true
         errorMsg := some ("invalid filename")
         headerContentType := none
         headerContentDisposition := none
         body := [] }) :=
  ⟨by decide, getDb_invalid_filename_aborts ("../x-ui.db/") [1, 2, 3]
    (by decide)⟩

end XUI
